import Mathlib

/-
Verification of the wellplayer-scraper-backend forwarding service
(src/server.js): a single-route Express app that validates a `query`
parameter, forwards it to the TMDB search endpoint, and relays the JSON
answer (or an error body) with permissive CORS headers.

The embedding is shallow: the handler becomes a pure function from the
parsed query value and an upstream oracle (URL to optional response) to
the HTTP response together with the list of outbound URLs it fetched.
-/

namespace WellPlayer

/-- JSON documents, as produced by `response.json()` and re-emitted by
`res.json(data)`. The service treats them as opaque values. -/
inductive Json where
  | null
  | bool (b : Bool)
  | num (n : Int)
  | str (s : String)
  | arr (elems : List Json)
  | obj (fields : List (String × Json))

/-- The value of `req.query.query` under Express's extended query parser:
absent, a plain string, an array of strings (repeated `?query=a&query=b`),
or an object (nested `?query[x]=y`). -/
inductive QueryValue where
  | absent
  | str (s : String)
  | arr (elems : List String)
  | obj (fields : List (String × String))

/-- JavaScript truthiness of the query value, as tested by `if (!query)`:
`undefined` and the empty string are falsy; every array or object is
truthy. -/
def QueryValue.truthy : QueryValue → Bool
  | .absent => false
  | .str s => !(s == "")
  | .arr _ => true
  | .obj _ => true

/-- JavaScript string coercion `String(v)` as applied by
`encodeURIComponent` to its argument: an array becomes its comma-joined
elements, an object becomes "[object Object]". -/
def QueryValue.jsString : QueryValue → String
  | .absent => "undefined"
  | .str s => s
  | .arr xs => String.intercalate "," xs
  | .obj _ => "[object Object]"

/-- Characters `encodeURIComponent` leaves unescaped: ASCII letters,
digits, and the marks - _ . ! ~ * ' ( ). -/
def isUnescapedURIChar (c : Char) : Bool :=
  c.isAlphanum || c == Char.ofNat 45 || c == Char.ofNat 95 || c == Char.ofNat 46 ||
    c == Char.ofNat 33 || c == Char.ofNat 126 || c == Char.ofNat 42 ||
    c == Char.ofNat 39 || c == Char.ofNat 40 || c == Char.ofNat 41

/-- UTF-8 bytes of a Unicode scalar value. -/
def utf8Bytes (c : Char) : List Nat :=
  let n := c.toNat
  if n < 0x80 then [n]
  else if n < 0x800 then [0xC0 + n / 0x40, 0x80 + n % 0x40]
  else if n < 0x10000 then
    [0xE0 + n / 0x1000, 0x80 + n / 0x40 % 0x40, 0x80 + n % 0x40]
  else
    [0xF0 + n / 0x40000, 0x80 + n / 0x1000 % 0x40, 0x80 + n / 0x40 % 0x40, 0x80 + n % 0x40]

/-- Upper-case hexadecimal digit, as `encodeURIComponent` emits. -/
def hexDigitUpper (n : Nat) : Char :=
  if n < 10 then Char.ofNat (48 + n) else Char.ofNat (55 + n)

/-- Percent-escape of one byte, e.g. 32 becomes "%20". -/
def percentEncodeByte (b : Nat) : String :=
  String.mk [Char.ofNat 37, hexDigitUpper (b / 16), hexDigitUpper (b % 16)]

/-- JavaScript's `encodeURIComponent`: unescaped characters pass through,
every other character is replaced by the percent-escapes of its UTF-8
bytes. -/
def encodeURIComponent (s : String) : String :=
  String.join (s.data.map fun c =>
    if isUnescapedURIChar c then String.singleton c
    else String.join ((utf8Bytes c).map percentEncodeByte))

/-- What `fetch` hands back when the transport succeeds: the upstream HTTP
status, and the result of `response.json()` (`none` when the body does not
decode as JSON, in which case `await response.json()` throws). -/
structure UpstreamResponse where
  status : Nat
  jsonBody : Option Json

/-- The upstream as an oracle from the fetched URL to a transport outcome:
`none` is a transport failure (fetch rejects). -/
abbrev Upstream := String → Option UpstreamResponse

/-- An HTTP response of the service: status, headers, JSON body. -/
structure HttpResponse where
  status : Nat
  headers : List (String × String)
  body : Json

/-- Body of the 400 validation error: { "error": "Missing query parameter" }. -/
def missingQueryBody : Json := .obj [("error", .str "Missing query parameter")]

/-- Body of the 500 upstream error: { "error": "Error fetching data" }. -/
def fetchErrorBody : Json := .obj [("error", .str "Error fetching data")]

/-- Hardcoded fallback TMDB credential from server.js line 10. -/
def defaultApiKey : String := "f81af962f969df1a8bebbb9f6b7f17b7"

/-- The outbound URL template of server.js lines 18-20. -/
def searchUrl (apiKey : String) (query : QueryValue) : String :=
  "https://api.themoviedb.org/3/search/movie?api_key=" ++ apiKey ++ "&query=" ++
    encodeURIComponent query.jsString

/-- The `/search` handler (server.js lines 12-26): validate, fetch, relay.
Returns the response together with the list of outbound URLs fetched. -/
def handleSearch (apiKey : String) (upstream : Upstream) (query : QueryValue) :
    HttpResponse × List String :=
  if query.truthy = false then
    ({ status := 400, headers := [], body := missingQueryBody }, [])
  else
    let url := searchUrl apiKey query
    match upstream url with
    | none => ({ status := 500, headers := [], body := fetchErrorBody }, [url])
    | some resp =>
      match resp.jsonBody with
      | none => ({ status := 500, headers := [], body := fetchErrorBody }, [url])
      | some data => ({ status := 200, headers := [], body := data }, [url])

/-- The header the `cors()` middleware attaches to every response. -/
def corsHeader : String × String := ("Access-Control-Allow-Origin", "*")

/-- Effect of `app.use(cors())` on one response. -/
def applyCors (r : HttpResponse) : HttpResponse :=
  { r with headers := corsHeader :: r.headers }

/-- The whole app on a `/search` request: the handler behind the CORS
middleware. -/
def app (apiKey : String) (upstream : Upstream) (query : QueryValue) :
    HttpResponse × List String :=
  let hr := handleSearch apiKey upstream query
  (applyCors hr.1, hr.2)

/-- Process environment as a partial map from variable name to value. -/
abbrev Env := String → Option String

/-- server.js line 10: `process.env.TMDB_API_KEY || <default>`; the empty
string is falsy, so it also falls back. -/
def tmdbApiKey (env : Env) : String :=
  match env "TMDB_API_KEY" with
  | some s => if s == "" then defaultApiKey else s
  | none => defaultApiKey

/-- The value bound as the listening port: either the PORT environment
string or the numeric default. -/
inductive PortValue where
  | fromEnv (s : String)
  | defaultPort (n : Nat)
deriving DecidableEq

/-- server.js line 29: `process.env.PORT || 3000`. -/
def listenPort (env : Env) : PortValue :=
  match env "PORT" with
  | some s => if s == "" then .defaultPort 3000 else .fromEnv s
  | none => .defaultPort 3000

/-- A sample environment with both variables set non-empty, for concrete
instantiation. -/
def envSample : Env := fun name =>
  if name = "TMDB_API_KEY" then some "envkey"
  else if name = "PORT" then some "8080"
  else none

/-- The whole observable service state: only the configured credential;
the handler closes over nothing else and assigns to nothing. -/
structure ServerState where
  apiKey : String

/-- One request step of the server: produces the next state alongside the
response and outbound calls. The source handler mutates no outer binding,
so the state passes through unchanged. -/
def handleRequest (st : ServerState) (upstream : Upstream) (query : QueryValue) :
    ServerState × HttpResponse × List String :=
  (st, app st.apiKey upstream query)

/-- C1: a `/search` request whose `query` is absent or the empty string gets
HTTP 400 with body { "error": "Missing query parameter" }, and no outbound
call is made (the call list is empty). -/
theorem search_missing_query_400 (k : String) (up : Upstream) (q : QueryValue)
    (h : q = QueryValue.absent ∨ q = QueryValue.str "") :
    app k up q =
      ({ status := 400, headers := [corsHeader], body := missingQueryBody }, []) := by
  rcases h with h | h <;> subst h <;> rfl

/-- C1 witness: the theorem applied to the absent query against an arbitrary
upstream. -/
theorem search_missing_query_400_witness :
    (QueryValue.absent = QueryValue.absent ∨ QueryValue.absent = QueryValue.str "") ∧
      app defaultApiKey (fun _ => none) QueryValue.absent =
        ({ status := 400, headers := [corsHeader], body := missingQueryBody }, []) :=
  ⟨Or.inl rfl,
    search_missing_query_400 defaultApiKey (fun _ => none) QueryValue.absent (Or.inl rfl)⟩

/-- C2: with a non-empty string `query`, when the upstream transport succeeds
and the body decodes as JSON `j`, the service answers HTTP 200 with exactly
`j`, having made exactly the one outbound call. -/
theorem search_success_relays_json (k : String) (up : Upstream) (q : String)
    (hq : q ≠ "") (resp : UpstreamResponse) (j : Json)
    (hup : up (searchUrl k (QueryValue.str q)) = some resp)
    (hj : resp.jsonBody = some j) :
    app k up (QueryValue.str q) =
      ({ status := 200, headers := [corsHeader], body := j },
        [searchUrl k (QueryValue.str q)]) := by
  simp [app, handleSearch, QueryValue.truthy, hq, hup, hj, applyCors]

/-- C2 witness: a concrete query "batman" against an upstream answering with a
concrete JSON document. -/
theorem search_success_relays_json_witness :
    ("batman" ≠ "") ∧
      app "k" (fun _ => some ⟨200, some (Json.str "ok")⟩) (QueryValue.str "batman") =
        ({ status := 200, headers := [corsHeader], body := Json.str "ok" },
          [searchUrl "k" (QueryValue.str "batman")]) :=
  ⟨by decide,
    search_success_relays_json "k" (fun _ => some ⟨200, some (Json.str "ok")⟩)
      "batman" (by decide) ⟨200, some (Json.str "ok")⟩ (Json.str "ok") rfl rfl⟩

/-- C3: with a non-empty string `query`, when the upstream call fails — the
transport rejects, or the body does not decode as JSON — the service answers
HTTP 500 with body { "error": "Error fetching data" }, and the outbound call
list has length at most one (no retry). -/
theorem search_upstream_failure_500 (k : String) (up : Upstream) (q : String)
    (hq : q ≠ "")
    (hfail : up (searchUrl k (QueryValue.str q)) = none ∨
      ∃ resp, up (searchUrl k (QueryValue.str q)) = some resp ∧ resp.jsonBody = none) :
    app k up (QueryValue.str q) =
        ({ status := 500, headers := [corsHeader], body := fetchErrorBody },
          [searchUrl k (QueryValue.str q)]) ∧
      (app k up (QueryValue.str q)).2.length ≤ 1 := by
  rcases hfail with hnone | ⟨resp, hresp, hbody⟩
  · constructor
    · simp [app, handleSearch, QueryValue.truthy, hq, hnone, applyCors]
    · simp [app, handleSearch, QueryValue.truthy, hq, hnone]
  · constructor
    · simp [app, handleSearch, QueryValue.truthy, hq, hresp, hbody, applyCors]
    · simp [app, handleSearch, QueryValue.truthy, hq, hresp, hbody]

/-- C3 witness: a concrete query "test" against an unreachable upstream. -/
theorem search_upstream_failure_500_witness :
    ("test" ≠ "") ∧
      (app "k" (fun _ => none) (QueryValue.str "test") =
          ({ status := 500, headers := [corsHeader], body := fetchErrorBody },
            [searchUrl "k" (QueryValue.str "test")]) ∧
        (app "k" (fun _ => none) (QueryValue.str "test")).2.length ≤ 1) :=
  ⟨by decide,
    search_upstream_failure_500 "k" (fun _ => none) "test" (by decide) (Or.inl rfl)⟩

/-- C4: every response of the service, whatever the query value and whatever
the upstream does, carries the Access-Control-Allow-Origin: * header. -/
theorem every_response_has_cors (k : String) (up : Upstream) (q : QueryValue) :
    corsHeader ∈ (app k up q).1.headers := by
  simp [app, applyCors]

/-- C5: for every non-empty string query `q`, the single outbound URL the
handler constructs is the literal TMDB template with the configured key and
the percent-encoding of `q` substituted in. -/
theorem outbound_url_matches_template (k : String) (up : Upstream) (q : String)
    (hq : q ≠ "") :
    (app k up (QueryValue.str q)).2 =
      ["https://api.themoviedb.org/3/search/movie?api_key=" ++ k ++ "&query=" ++
        encodeURIComponent q] := by
  have ht : (QueryValue.str q).truthy = true := by simp [QueryValue.truthy, hq]
  have hurl : searchUrl k (QueryValue.str q) =
      "https://api.themoviedb.org/3/search/movie?api_key=" ++ k ++ "&query=" ++
        encodeURIComponent q := rfl
  rw [← hurl]
  cases hu : up (searchUrl k (QueryValue.str q)) with
  | none =>
      simp [app, handleSearch, ht, hu]
  | some resp =>
      cases hb : resp.jsonBody <;>
        simp [app, handleSearch, ht, hu, hb]

/-- C5 witness: the query "star wars" with a concrete key produces the
template URL with the space percent-encoded. -/
theorem outbound_url_matches_template_witness :
    ("star wars" ≠ "") ∧
      (app "mykey" (fun _ => none) (QueryValue.str "star wars")).2 =
        ["https://api.themoviedb.org/3/search/movie?api_key=" ++ "mykey" ++ "&query=" ++
          encodeURIComponent "star wars"] :=
  ⟨by decide,
    outbound_url_matches_template "mykey" (fun _ => none) "star wars" (by decide)⟩

/-- Helper: whenever the query value is truthy, exactly one outbound call to
the search URL is made and the response status is 200 or 500 (never 400). -/
theorem app_truthy_calls (k : String) (up : Upstream) (q : QueryValue)
    (ht : q.truthy = true) :
    (app k up q).2 = [searchUrl k q] ∧
      ((app k up q).1.status = 200 ∨ (app k up q).1.status = 500) := by
  cases hu : up (searchUrl k q) with
  | none =>
      exact ⟨by simp [app, handleSearch, ht, hu],
        Or.inr (by simp [app, handleSearch, ht, hu, applyCors])⟩
  | some resp =>
    cases hb : resp.jsonBody with
    | none =>
        exact ⟨by simp [app, handleSearch, ht, hu, hb],
          Or.inr (by simp [app, handleSearch, ht, hu, hb, applyCors])⟩
    | some j =>
        exact ⟨by simp [app, handleSearch, ht, hu, hb],
          Or.inl (by simp [app, handleSearch, ht, hu, hb, applyCors])⟩

/-- C6: the credential is the TMDB_API_KEY environment value when set and
non-empty, else the hardcoded default; the port is the PORT environment
value when set and non-empty, else 3000. -/
theorem config_from_env (env : Env) :
    (∀ s, env "TMDB_API_KEY" = some s → s ≠ "" → tmdbApiKey env = s) ∧
      ((env "TMDB_API_KEY" = none ∨ env "TMDB_API_KEY" = some "") →
        tmdbApiKey env = defaultApiKey) ∧
      (∀ s, env "PORT" = some s → s ≠ "" → listenPort env = PortValue.fromEnv s) ∧
      ((env "PORT" = none ∨ env "PORT" = some "") →
        listenPort env = PortValue.defaultPort 3000) := by
  refine ⟨?_, ?_, ?_, ?_⟩
  · intro s hs hne
    simp [tmdbApiKey, hs, hne]
  · rintro (h | h) <;> simp [tmdbApiKey, h]
  · intro s hs hne
    simp [listenPort, hs, hne]
  · rintro (h | h) <;> simp [listenPort, h]

/-- C6 witness: on a concrete environment with both variables set and
non-empty, the configured values are the environment values. -/
theorem config_from_env_witness :
    tmdbApiKey envSample = "envkey" ∧ listenPort envSample = PortValue.fromEnv "8080" :=
  ⟨(config_from_env envSample).1 "envkey" (by decide) (by decide),
    (config_from_env envSample).2.2.1 "8080" (by decide) (by decide)⟩

/-- C7: the handler is deterministic relative to the upstream — two upstreams
that agree everywhere yield identical responses on the same request — and a
request leaves the service state unchanged. -/
theorem handler_deterministic_stateless (st : ServerState) (up1 up2 : Upstream)
    (q : QueryValue) (h : ∀ u, up1 u = up2 u) :
    handleRequest st up1 q = handleRequest st up2 q ∧
      (handleRequest st up1 q).1 = st := by
  constructor
  · simp only [handleRequest, app, handleSearch, h]
  · rfl

/-- C7 witness: the theorem applied to a concrete state, query and a pair of
(equal) upstreams. -/
theorem handler_deterministic_stateless_witness :
    handleRequest ⟨"k"⟩ (fun _ => none) QueryValue.absent =
        handleRequest ⟨"k"⟩ (fun _ => none) QueryValue.absent ∧
      (handleRequest ⟨"k"⟩ (fun _ => none) QueryValue.absent).1 = ⟨"k"⟩ :=
  handler_deterministic_stateless ⟨"k"⟩ (fun _ => none) (fun _ => none)
    QueryValue.absent (fun _ => rfl)

/-- C8: every handled request yields exactly one response, of exactly one of
three shapes — the 400 validation error, the 500 upstream error, or a 200
success carrying a JSON document decoded from the upstream. -/
theorem every_request_one_response (k : String) (up : Upstream) (q : QueryValue) :
    (app k up q).1 = { status := 400, headers := [corsHeader], body := missingQueryBody } ∨
      (app k up q).1 = { status := 500, headers := [corsHeader], body := fetchErrorBody } ∨
      ∃ resp j, up (searchUrl k q) = some resp ∧ resp.jsonBody = some j ∧
        (app k up q).1 = { status := 200, headers := [corsHeader], body := j } := by
  by_cases ht : q.truthy = false
  · exact Or.inl (by simp [app, handleSearch, ht, applyCors])
  · cases hu : up (searchUrl k q) with
    | none => exact Or.inr (Or.inl (by simp [app, handleSearch, ht, hu, applyCors]))
    | some resp =>
      cases hb : resp.jsonBody with
      | none =>
          exact Or.inr (Or.inl (by simp [app, handleSearch, ht, hu, hb, applyCors]))
      | some j =>
          exact Or.inr (Or.inr ⟨resp, j, rfl, hb,
            by simp [app, handleSearch, ht, hu, hb, applyCors]⟩)

/-- C9: when the upstream transport succeeds and the body decodes as JSON,
the service answers 200 with that body whatever the upstream HTTP status
was — a 4xx/5xx upstream document is relayed as a 200, not mapped to 500. -/
theorem upstream_status_ignored (k : String) (up : Upstream) (q : String)
    (hq : q ≠ "") (s : Nat) (j : Json)
    (hup : up (searchUrl k (QueryValue.str q)) = some ⟨s, some j⟩) :
    (app k up (QueryValue.str q)).1.status = 200 ∧
      (app k up (QueryValue.str q)).1.body = j := by
  constructor <;> simp [app, handleSearch, QueryValue.truthy, hq, hup, applyCors]

/-- C9 witness: an upstream answering 401 with a TMDB invalid-key JSON
document is relayed as a 200 carrying that document. -/
theorem upstream_status_ignored_witness :
    ("batman" ≠ "") ∧
      (app "badkey"
          (fun _ => some ⟨401, some (Json.obj [("status_code", Json.num 7),
            ("status_message", Json.str "Invalid API key")])⟩)
          (QueryValue.str "batman")).1.status = 200 ∧
      (app "badkey"
          (fun _ => some ⟨401, some (Json.obj [("status_code", Json.num 7),
            ("status_message", Json.str "Invalid API key")])⟩)
          (QueryValue.str "batman")).1.body =
        Json.obj [("status_code", Json.num 7),
          ("status_message", Json.str "Invalid API key")] :=
  ⟨by decide,
    upstream_status_ignored "badkey"
      (fun _ => some ⟨401, some (Json.obj [("status_code", Json.num 7),
        ("status_message", Json.str "Invalid API key")])⟩)
      "batman" (by decide) 401
      (Json.obj [("status_code", Json.num 7),
        ("status_message", Json.str "Invalid API key")]) rfl⟩

/-- C10: array and object query values (from repeated or nested parameters)
are truthy, so validation passes — the response is never the 400 — and the
value is string-coerced into the outbound URL: an array as its comma-joined
elements, an object as "[object Object]". -/
theorem truthy_nonstring_query_coerced (k : String) (up : Upstream)
    (xs : List String) (kvs : List (String × String)) :
    (QueryValue.arr xs).truthy = true ∧ (QueryValue.obj kvs).truthy = true ∧
      ((app k up (QueryValue.arr xs)).1.status = 200 ∨
        (app k up (QueryValue.arr xs)).1.status = 500) ∧
      ((app k up (QueryValue.obj kvs)).1.status = 200 ∨
        (app k up (QueryValue.obj kvs)).1.status = 500) ∧
      (app k up (QueryValue.arr xs)).2 =
        ["https://api.themoviedb.org/3/search/movie?api_key=" ++ k ++ "&query=" ++
          encodeURIComponent (String.intercalate "," xs)] ∧
      (app k up (QueryValue.obj kvs)).2 =
        ["https://api.themoviedb.org/3/search/movie?api_key=" ++ k ++ "&query=" ++
          encodeURIComponent "[object Object]"] := by
  obtain ⟨ha1, ha2⟩ := app_truthy_calls k up (QueryValue.arr xs) rfl
  obtain ⟨ho1, ho2⟩ := app_truthy_calls k up (QueryValue.obj kvs) rfl
  exact ⟨rfl, rfl, ha2, ho2, by rw [ha1]; rfl, by rw [ho1]; rfl⟩

end WellPlayer
